import Mathlib

/-!
Verification development for the xpost posting core
(`internal/app/app.go` and the CLI layer in `main.go`).

The Go source is shallowly embedded: pure helpers become Lean functions;
the effectful client calls (the xdk media/post endpoints, the legacy v1
HTTP endpoint, the filesystem) are abstracted into explicit oracle
structures whose fields record the response each call would produce, so
the orchestration logic (strategy chains, retries, persistence) becomes
a pure function of those responses.

Go strings are modelled as Lean strings; `strings.TrimSpace` as
`trimSpace` below (ASCII whitespace); dynamic JSON (`any` trees produced by
`encoding/json`) as the inductive `Json` below, with Go maps rendered as
association lists in a fixed iteration order (one refinement of the Go
map order, which the spec itself declares unspecified); numeric JSON
leaves carry integers, matching the integral-value stringification path
of the source.
-/

namespace Xpost

/-- Dynamic JSON-like tree, the shallow embedding of the Go `any` values
produced by `encoding/json` and handed to `extractMediaRef`. -/
inductive Json where
  | jnull : Json
  | jbool (b : Bool) : Json
  | jnum (n : Int) : Json
  | jstr (s : String) : Json
  | jarr (xs : List Json) : Json
  | jobj (kvs : List (String × Json)) : Json

/-- Embedding of `strings.TrimSpace`: drop leading and trailing
whitespace. Implemented over the character list (rather than
`String.trim`) so statements about it reduce inside the kernel. -/
def trimSpace (s : String) : String :=
  ⟨((s.data.dropWhile Char.isWhitespace).reverse.dropWhile Char.isWhitespace).reverse⟩

/-- Embedding of `stringify` (app.go): strings are trimmed, numbers are
rendered in decimal (the integral case of the Go float/number branches),
and every other shape — bool, null, maps, arrays — yields `""`. -/
def stringify : Json → String
  | .jstr s => trimSpace s
  | .jnum n => toString n
  | _ => ""

/-- Embedding of `strings.EqualFold` for the comparisons the source
performs (always against an ASCII literal, for which Unicode simple
folding coincides with ASCII lower-casing). -/
def foldEq (a b : String) : Bool :=
  a.data.map Char.toLower == b.data.map Char.toLower

/-- Current-level scan for one priority key: the inner loop of
`findFirstByPriority` — first map entry whose key case-insensitively
equals `key` and whose value stringifies non-empty. -/
def lookupFoldNonEmpty (key : String) : List (String × Json) → Option String
  | [] => none
  | (k, raw) :: rest =>
    if foldEq k key ∧ stringify raw ≠ "" then some (stringify raw)
    else lookupFoldNonEmpty key rest

/-- Current-level search in key-priority order: the outer
"check current level by key priority first" loop of `findFirstByPriority`. -/
def levelSearch (keys : List String) (kvs : List (String × Json)) : Option String :=
  match keys with
  | [] => none
  | key :: rest =>
    match lookupFoldNonEmpty key kvs with
    | some s => some s
    | none => levelSearch rest kvs

mutual

/-- Embedding of `findFirstByPriority` (app.go): on a map, check the
current level by key priority first, then recurse into every nested
value; on an array, recurse into every element; scalars yield `""`. -/
def findFirstByPriority (payload : Json) (keys : List String) : String :=
  match payload with
  | .jobj kvs =>
    match levelSearch keys kvs with
    | some s => s
    | none => searchNestedVals kvs keys
  | .jarr xs => searchNestedList xs keys
  | _ => ""

/-- The "then search nested structures" loop over a map value list. -/
def searchNestedVals (kvs : List (String × Json)) (keys : List String) : String :=
  match kvs with
  | [] => ""
  | (_, raw) :: rest =>
    let s := findFirstByPriority raw keys
    if s ≠ "" then s else searchNestedVals rest keys

/-- The element loop of `findFirstByPriority` over an array. -/
def searchNestedList (xs : List Json) (keys : List String) : String :=
  match xs with
  | [] => ""
  | raw :: rest =>
    let s := findFirstByPriority raw keys
    if s ≠ "" then s else searchNestedList rest keys

end

/-- Normalized media reference (`MediaRef` in app.go). -/
structure MediaRef where
  id : String := ""
  mediaKey : String := ""
deriving DecidableEq, Repr

/-- Embedding of `extractMediaRef` (app.go): id by priority
`media_id_string` > `media_id` > `id`, key by `media_key`, each via the
same two-phase search. -/
def extractMediaRef (payload : Json) : MediaRef :=
  { id := findFirstByPriority payload ["media_id_string", "media_id", "id"]
    mediaKey := findFirstByPriority payload ["media_key"] }

/-- The `X` credential section of the configuration (`XAuthConfig` in
app.go), with the scheme-A (OAuth1) four-part credential and the
scheme-B (OAuth2) token fields. -/
structure XAuthConfig where
  apiKey : String := ""
  apiSecret : String := ""
  accessToken : String := ""
  accessTokenSecret : String := ""
  oauth2ClientID : String := ""
  oauth2ClientSecret : String := ""
  oauth2RedirectURI : String := ""
  oauth2Scope : List String := []
  oauth2AccessToken : String := ""
  oauth2RefreshToken : String := ""
  oauth2TokenType : String := ""
  oauth2ExpiresAt : Int := 0
deriving DecidableEq, Repr

/-- Loop body of `uniqueNonEmpty` (app.go), with the Go `seen` map
rendered as the list of strings inserted so far. -/
def uniqueNonEmptyGo (seen : List String) : List String → List String
  | [] => []
  | x :: rest =>
    if x = "" then uniqueNonEmptyGo seen rest
    else if seen.contains x then uniqueNonEmptyGo seen rest
    else x :: uniqueNonEmptyGo (x :: seen) rest

/-- Embedding of `uniqueNonEmpty` (app.go): drop empty strings and
duplicates, keeping first occurrences. -/
def uniqueNonEmpty (items : List String) : List String :=
  uniqueNonEmptyGo [] items

/-- Segment accumulator for `splitComma`. -/
def splitCommaGo : List Char → List Char → List String
  | [], acc => [⟨acc.reverse⟩]
  | c :: rest, acc =>
    if c = ',' then ⟨acc.reverse⟩ :: splitCommaGo rest []
    else splitCommaGo rest (c :: acc)

/-- `strings.Split(raw, ",")`: comma-separated segments. -/
def splitComma (s : String) : List String :=
  splitCommaGo s.data []

/-- Digit accumulator for `parseInt?`. -/
def parseDigitsGo : List Char → Nat → Option Nat
  | [], acc => some acc
  | c :: rest, acc =>
    if c.isDigit then parseDigitsGo rest (acc * 10 + (c.toNat - 48))
    else none

/-- Largest value of a signed 64-bit integer. -/
def int64Max : Int := 2 ^ 63 - 1

/-- Smallest value of a signed 64-bit integer. -/
def int64Min : Int := -(2 ^ 63)

/-- `strconv.ParseInt(s, 10, 64)`: optional sign then decimal digits,
failing when the value overflows the signed 64-bit range (Go returns an
out-of-range error, which the caller treats as not-a-number). -/
def parseInt? (s : String) : Option Int :=
  match s.data with
  | [] => none
  | '+' :: rest =>
    if rest.isEmpty then none
    else (parseDigitsGo rest 0).bind fun n =>
      if (n : Int) ≤ int64Max then some (n : Int) else none
  | '-' :: rest =>
    if rest.isEmpty then none
    else (parseDigitsGo rest 0).bind fun n =>
      if -(n : Int) < int64Min then none else some (-(n : Int))
  | l =>
    (parseDigitsGo l 0).bind fun n =>
      if (n : Int) ≤ int64Max then some (n : Int) else none

/-- Embedding of `splitCSV` (app.go). -/
def splitCSV (raw : String) : List String :=
  if trimSpace raw = "" then []
  else
    let parts := splitComma raw
    let out := parts.filterMap fun part =>
      let item := trimSpace part
      if item = "" then none else some item
    uniqueNonEmpty out

/-- Embedding of `effectiveOAuth2Scopes` (app.go). -/
def effectiveOAuth2Scopes (scopes : List String) : List String :=
  if scopes.length = 0 then
    ["tweet.read", "tweet.write", "users.read", "offline.access"]
  else uniqueNonEmpty scopes

/-- Embedding of `hasAnyOAuth1Fields` (app.go). -/
def hasAnyOAuth1Fields (cfg : XAuthConfig) : Bool :=
  trimSpace cfg.apiKey ≠ "" ∨ trimSpace cfg.apiSecret ≠ "" ∨
    trimSpace cfg.accessToken ≠ "" ∨ trimSpace cfg.accessTokenSecret ≠ ""

/-- Embedding of `missingOAuth1Fields` (app.go): blank field names
appended in the source order api_key, api_secret, access_token,
access_token_secret. -/
def missingOAuth1Fields (cfg : XAuthConfig) : List String :=
  (if trimSpace cfg.apiKey = "" then ["api_key"] else []) ++
    (if trimSpace cfg.apiSecret = "" then ["api_secret"] else []) ++
      (if trimSpace cfg.accessToken = "" then ["access_token"] else []) ++
        (if trimSpace cfg.accessTokenSecret = "" then ["access_token_secret"] else [])

/-- Model of the `xdk.Client` handle as far as the posting core observes
it: whether a signing credential is attached (`client.Auth != nil`,
set only by the OAuth1 branch of `newPoster`) plus the OAuth2 client
fields copied from the configuration. -/
structure XdkClient where
  hasOAuth1Auth : Bool
  accessToken : String := ""
  clientID : String := ""
  clientSecret : String := ""
  redirectURI : String := ""
  scope : List String := []
deriving DecidableEq, Repr

/-- `Poster` (app.go): the resolved client handle plus the auth-mode tag. -/
structure Poster where
  client : XdkClient
  authMode : String
deriving DecidableEq, Repr

/-- Embedding of `newPoster` (app.go): scheme A first (all four fields
required once any is set), then scheme B on a non-blank OAuth2 access
token, else the missing-credentials error. -/
def newPoster (authCfg : XAuthConfig) : Except String Poster :=
  if hasAnyOAuth1Fields authCfg then
    let missing := missingOAuth1Fields authCfg
    if missing ≠ [] then
      .error ("incomplete OAuth1 config, missing: " ++ String.intercalate ", " missing)
    else
      .ok { client := { hasOAuth1Auth := true }, authMode := "oauth1" }
  else if trimSpace authCfg.oauth2AccessToken ≠ "" then
    let base : XdkClient := { hasOAuth1Auth := false, accessToken := authCfg.oauth2AccessToken }
    let client :=
      if trimSpace authCfg.oauth2ClientID ≠ "" then
        { base with
          clientID := trimSpace authCfg.oauth2ClientID
          clientSecret := trimSpace authCfg.oauth2ClientSecret
          redirectURI := trimSpace authCfg.oauth2RedirectURI
          scope := effectiveOAuth2Scopes authCfg.oauth2Scope }
      else base
    .ok { client := client, authMode := "oauth2_user_token" }
  else
    .error "missing x auth configuration (set OAuth1 fields or oauth2_access_token)"

/-- Which field name carries the base64 payload in an upload body:
`"media"` or `"media_data"` (the only difference between the paired
attempt bodies in `UploadMedia` and `uploadMediaChunked`). -/
inductive PayloadField where
  | media : PayloadField
  | media_data : PayloadField
deriving DecidableEq, Repr

/-- Oracle for the effectful client calls made by the upload chain for
one blob: each field records the response the corresponding call would
return (`Except.error` carries the Go error string).  The request bodies
built by the source (base64 payload, media type, category) are functions
of the blob alone; only the payload field name varies between paired
attempts, so the oracle is keyed by `PayloadField`.  `v1Raw` is the raw
response body of the legacy v1 HTTP call, used in its error message. -/
structure XClientOracle where
  upload : PayloadField → Except String Json
  initializeUpload : Except String Json
  appendUpload : PayloadField → Option String
  finalizeUpload : Except String Json
  v1Response : Except String Json
  v1Raw : String := ""

/-- One simple-upload attempt of `UploadMedia` (app.go): call
`Media.Upload`, extract a reference, succeed only on a non-empty id or
key, otherwise record the soft failure. -/
def simpleAttempt (o : XClientOracle) (f : PayloadField) : Except String MediaRef :=
  match o.upload f with
  | .error e => .error e
  | .ok resp =>
    let ref := extractMediaRef resp
    if ref.id ≠ "" ∨ ref.mediaKey ≠ "" then .ok ref
    else .error "upload returned no media identifier"

/-- Embedding of `uploadMediaChunked` (app.go): initialize, append
(field `media` first, retried once with `media_data`), finalize, with
the finalize reference backfilled from the initialize phase. -/
def uploadMediaChunked (o : XClientOracle) : Except String MediaRef :=
  match o.initializeUpload with
  | .error e => .error e
  | .ok initResp =>
    let initRef := extractMediaRef initResp
    let mediaID := initRef.id
    if mediaID = "" then .error "initialize_upload did not return media id"
    else
      let appendErr :=
        match o.appendUpload .media with
        | none => none
        | some _ => o.appendUpload .media_data
      match appendErr with
      | some e => .error e
      | none =>
        match o.finalizeUpload with
        | .error e => .error e
        | .ok finalResp =>
          let finalRef := extractMediaRef finalResp
          let finalRef :=
            if finalRef.id = "" then { finalRef with id := mediaID } else finalRef
          let finalRef :=
            if finalRef.mediaKey = "" then { finalRef with mediaKey := initRef.mediaKey }
            else finalRef
          .ok finalRef

/-- Embedding of `uploadMediaV1` (app.go): the manually signed multipart
POST to the legacy endpoint, abstracted to its decoded response;
requires a held signing credential and a non-empty extracted id. -/
def uploadMediaV1 (p : Poster) (o : XClientOracle) : Except String MediaRef :=
  if ¬ p.client.hasOAuth1Auth then
    .error "oauth1 auth is required for v1 media upload fallback"
  else
    match o.v1Response with
    | .error e => .error e
    | .ok obj =>
      let ref := extractMediaRef obj
      if ref.id = "" then
        .error ("v1 media upload returned no media id: " ++ trimSpace o.v1Raw)
      else .ok ref

/-- Embedding of `UploadMedia` (app.go): the strategy chain — simple
upload with field `media`, simple upload with field `media_data`,
chunked upload, and (only when the client holds a signing credential)
the legacy v1 fallback — returning the first success and otherwise the
aggregated pipe-delimited failure message. -/
def uploadMedia (p : Poster) (o : XClientOracle) : Except String MediaRef :=
  match simpleAttempt o .media with
  | .ok ref => .ok ref
  | .error e1 =>
    match simpleAttempt o .media_data with
    | .ok ref => .ok ref
    | .error e2 =>
      match uploadMediaChunked o with
      | .ok ref => .ok ref
      | .error e3 =>
        if p.client.hasOAuth1Auth then
          match uploadMediaV1 p o with
          | .ok ref => .ok ref
          | .error e4 =>
            .error ("media upload failed: " ++ String.intercalate " | " [e1, e2, e3, e4])
        else
          .error ("media upload failed: " ++ String.intercalate " | " [e1, e2, e3])

/-- The `media` value of a tweet request body: either a `media_ids`
list or a `media_keys` list. -/
inductive MediaField where
  | ids (l : List String) : MediaField
  | keys (l : List String) : MediaField
deriving DecidableEq, Repr

/-- The tweet request body built by `CreateTweet` (app.go): optional
trimmed text and an optional `media` entry. -/
structure TweetBody where
  text : Option String := none
  media : Option MediaField := none
deriving DecidableEq, Repr

/-- Embedding of `mediaIDs` (app.go): trimmed non-blank ids, in order. -/
def mediaIDsOf (items : List MediaRef) : List String :=
  items.filterMap fun item =>
    if trimSpace item.id ≠ "" then some (trimSpace item.id) else none

/-- Embedding of `mediaKeys` (app.go): trimmed non-blank keys, in order. -/
def mediaKeysOf (items : List MediaRef) : List String :=
  items.filterMap fun item =>
    if trimSpace item.mediaKey ≠ "" then some (trimSpace item.mediaKey) else none

/-- The body of the first submission made by `CreateTweet` (app.go). -/
def tweetFirstBody (text : String) (media : List MediaRef) : TweetBody :=
  let body : TweetBody :=
    { text := if trimSpace text ≠ "" then some (trimSpace text) else none }
  let ids := uniqueNonEmpty (mediaIDsOf media)
  if ids ≠ [] then { body with media := some (.ids ids) } else body

/-- The body of the retry submission of `CreateTweet` (app.go):
`media.media_keys` substituted into the first body. -/
def tweetRetryBody (text : String) (media : List MediaRef) : TweetBody :=
  { tweetFirstBody text media with
    media := some (.keys (uniqueNonEmpty (mediaKeysOf media))) }

/-- Embedding of `CreateTweet` (app.go), with the `Posts.Create` call
abstracted as `submit`: submit the first body; on failure retry once
with `media.media_keys` when de-duplicated keys exist, else propagate
the original error. -/
def createTweet (submit : TweetBody → Except String Json)
    (text : String) (media : List MediaRef) : Except String Json :=
  let mediaKeyList := uniqueNonEmpty (mediaKeysOf media)
  match submit (tweetFirstBody text media) with
  | .ok resp => .ok resp
  | .error e =>
    if mediaKeyList ≠ [] then submit (tweetRetryBody text media)
    else .error e

/-- Embedding of `readTokenFromRequest` (app.go): prefer a Bearer
Authorization header (trimmed, longer than 7 characters, ASCII
case-insensitive `"Bearer "` prefix), else the trimmed `X-API-Token`
header; absent headers read as `""` (Go `Header.Get`). -/
def readTokenFromRequest (authorization xAPIToken : String) : String :=
  let authHeader := trimSpace authorization
  if authHeader.length > 7 ∧ foldEq ⟨authHeader.data.take 7⟩ "Bearer " then
    trimSpace ⟨authHeader.data.drop 7⟩
  else trimSpace xAPIToken

/-- The refreshed-token map (`map[string]any`) consumed by
`applyOAuth2TokenToConfig` (main.go), restricted to the keys the source
reads; `none` models an absent key (Go map access yielding `nil`). -/
structure OAuth2Token where
  accessToken : Option Json := none
  refreshToken : Option Json := none
  tokenType : Option Json := none
  scope : Option Json := none
  expiresAt : Option Json := none
  expiresIn : Option Json := none

/-- `stringify` applied to a possibly-absent map value: Go `stringify(nil)`
falls to the default branch and yields `""`. -/
def stringifyOpt : Option Json → String
  | none => ""
  | some v => stringify v

/-- Embedding of `toInt64` (main.go) on the dynamic values this model
can hold: numbers convert directly, non-blank strings parse as base-10
integers, everything else (absent, null, bool, containers) fails. -/
def toInt64 : Option Json → Option Int
  | some (.jnum n) => some n
  | some (.jstr s) => if trimSpace s = "" then none else parseInt? (trimSpace s)
  | _ => none

/-- Word accumulator for `goFields`. -/
def goFieldsGo : List Char → List Char → List String
  | [], acc => if acc.isEmpty then [] else [⟨acc.reverse⟩]
  | c :: rest, acc =>
    if c.isWhitespace then
      if acc.isEmpty then goFieldsGo rest []
      else ⟨acc.reverse⟩ :: goFieldsGo rest []
    else goFieldsGo rest (c :: acc)

/-- `strings.Fields`: whitespace-separated fields, no empties. -/
def goFields (s : String) : List String :=
  goFieldsGo s.data []

/-- Embedding of `applyOAuth2TokenToConfig` (main.go), returning the
configuration after the call plus the optional error, mirroring the Go
in-place mutation: a blank/missing `access_token` errors before any
field is written; otherwise access/refresh/type are written, scope is
rewritten only when non-blank (comma list or whitespace fields), and
expiry prefers a convertible `expires_at`, else `now + expires_in` for
positive `expires_in`, and is stored only when positive. -/
def applyOAuth2TokenToConfig (cfg : XAuthConfig) (token : OAuth2Token)
    (now : Int) : XAuthConfig × Option String :=
  let access := stringifyOpt token.accessToken
  if trimSpace access = "" then
    (cfg, some "oauth2 token does not contain access_token")
  else
    let cfg := { cfg with
      oauth2AccessToken := trimSpace access
      oauth2RefreshToken := trimSpace (stringifyOpt token.refreshToken)
      oauth2TokenType := trimSpace (stringifyOpt token.tokenType) }
    let scopeValue := trimSpace (stringifyOpt token.scope)
    let cfg :=
      if scopeValue ≠ "" then
        if scopeValue.data.contains ',' then { cfg with oauth2Scope := splitCSV scopeValue }
        else { cfg with oauth2Scope := uniqueNonEmpty (goFields scopeValue) }
      else cfg
    let expiresAtVal :=
      match toInt64 token.expiresAt with
      | some v => v
      | none =>
        match toInt64 token.expiresIn with
        | some w => if w > 0 then now + w else 0
        | none => 0
    let cfg :=
      if expiresAtVal > 0 then { cfg with oauth2ExpiresAt := expiresAtVal } else cfg
    (cfg, none)

/-- `server` section of the configuration (app.go). -/
structure ServerConfig where
  addr : String := ""
deriving DecidableEq, Repr

/-- `security` section of the configuration (app.go). -/
structure SecurityConfig where
  apiToken : String := ""
deriving DecidableEq, Repr

/-- The full configuration document (`Config` in app.go). -/
structure Config where
  server : ServerConfig := {}
  security : SecurityConfig := {}
  x : XAuthConfig := {}
deriving DecidableEq, Repr

/-- `defaultServerAddr` (app.go). -/
def defaultServerAddr : String := ":8080"

/-- Keep the present (`some`) fields of an `omitempty` field schema, in
declaration order, as `json.Marshal` emits a struct. -/
def omitFields : List (String × Option Json) → List (String × Json)
  | [] => []
  | (_, none) :: rest => omitFields rest
  | (n, some v) :: rest => (n, v) :: omitFields rest

/-- The `x` section's JSON field schema per its struct tags (all fields
`omitempty`: a field is emitted exactly when non-zero), in declaration
order. -/
def xAuthSchema (x : XAuthConfig) : List (String × Option Json) :=
  [("api_key", if x.apiKey = "" then none else some (.jstr x.apiKey)),
    ("api_secret", if x.apiSecret = "" then none else some (.jstr x.apiSecret)),
    ("access_token", if x.accessToken = "" then none else some (.jstr x.accessToken)),
    ("access_token_secret",
      if x.accessTokenSecret = "" then none else some (.jstr x.accessTokenSecret)),
    ("oauth2_client_id",
      if x.oauth2ClientID = "" then none else some (.jstr x.oauth2ClientID)),
    ("oauth2_client_secret",
      if x.oauth2ClientSecret = "" then none else some (.jstr x.oauth2ClientSecret)),
    ("oauth2_redirect_uri",
      if x.oauth2RedirectURI = "" then none else some (.jstr x.oauth2RedirectURI)),
    ("oauth2_scope",
      if x.oauth2Scope = [] then none else some (.jarr (x.oauth2Scope.map .jstr))),
    ("oauth2_access_token",
      if x.oauth2AccessToken = "" then none else some (.jstr x.oauth2AccessToken)),
    ("oauth2_refresh_token",
      if x.oauth2RefreshToken = "" then none else some (.jstr x.oauth2RefreshToken)),
    ("oauth2_token_type",
      if x.oauth2TokenType = "" then none else some (.jstr x.oauth2TokenType)),
    ("oauth2_expires_at",
      if x.oauth2ExpiresAt = 0 then none else some (.jnum x.oauth2ExpiresAt))]

/-- JSON encoding of the `x` section, as `json.Marshal` emits it. -/
def encodeXAuthConfig (x : XAuthConfig) : Json :=
  .jobj (omitFields (xAuthSchema x))

/-- JSON encoding of the whole configuration, as `saveConfig`
marshals it (`server`/`security`/`x` have no `omitempty`). -/
def encodeConfig (cfg : Config) : Json :=
  .jobj
    [("server", .jobj [("addr", .jstr cfg.server.addr)]),
      ("security", .jobj [("api_token", .jstr cfg.security.apiToken)]),
      ("x", encodeXAuthConfig cfg.x)]

/-- Key lookup in a decoded JSON object, as `json.Unmarshal` matches
struct tags (the encoder emits unique exact-case keys, so exact
first-match lookup coincides with the Go behaviour). -/
def jLookup (kvs : List (String × Json)) (key : String) : Option Json :=
  match kvs.find? (fun kv => kv.1 == key) with
  | some kv => some kv.2
  | none => none

/-- `json.Unmarshal` into a string field holding `base`: absent or null
keys leave it unchanged, a JSON string overwrites, anything else is a
type error. -/
def decodeStringField (base : String) : Option Json → Option String
  | none => some base
  | some .jnull => some base
  | some (.jstr s) => some s
  | some _ => none

/-- `json.Unmarshal` into an `int64` field holding `base`. -/
def decodeIntField (base : Int) : Option Json → Option Int
  | none => some base
  | some .jnull => some base
  | some (.jnum n) => some n
  | some _ => none

/-- Element-wise `json.Unmarshal` of a JSON array into `[]string`. -/
def decodeStringList : List Json → Option (List String)
  | [] => some []
  | .jstr s :: rest => (decodeStringList rest).map (s :: ·)
  | _ => none

/-- `json.Unmarshal` into a `[]string` field holding `base` (JSON null
resets a Go slice to nil). -/
def decodeStringListField (base : List String) : Option Json → Option (List String)
  | none => some base
  | some .jnull => some []
  | some (.jarr xs) => decodeStringList xs
  | some _ => none

/-- `json.Unmarshal` of the `x` section into `base`. -/
def decodeXAuthConfigInto (base : XAuthConfig) : Json → Option XAuthConfig
  | .jnull => some base
  | .jobj kvs => do
    let apiKey ← decodeStringField base.apiKey (jLookup kvs "api_key")
    let apiSecret ← decodeStringField base.apiSecret (jLookup kvs "api_secret")
    let accessToken ← decodeStringField base.accessToken (jLookup kvs "access_token")
    let accessTokenSecret ←
      decodeStringField base.accessTokenSecret (jLookup kvs "access_token_secret")
    let oauth2ClientID ←
      decodeStringField base.oauth2ClientID (jLookup kvs "oauth2_client_id")
    let oauth2ClientSecret ←
      decodeStringField base.oauth2ClientSecret (jLookup kvs "oauth2_client_secret")
    let oauth2RedirectURI ←
      decodeStringField base.oauth2RedirectURI (jLookup kvs "oauth2_redirect_uri")
    let oauth2Scope ←
      decodeStringListField base.oauth2Scope (jLookup kvs "oauth2_scope")
    let oauth2AccessToken ←
      decodeStringField base.oauth2AccessToken (jLookup kvs "oauth2_access_token")
    let oauth2RefreshToken ←
      decodeStringField base.oauth2RefreshToken (jLookup kvs "oauth2_refresh_token")
    let oauth2TokenType ←
      decodeStringField base.oauth2TokenType (jLookup kvs "oauth2_token_type")
    let oauth2ExpiresAt ←
      decodeIntField base.oauth2ExpiresAt (jLookup kvs "oauth2_expires_at")
    pure
      { apiKey := apiKey, apiSecret := apiSecret, accessToken := accessToken,
        accessTokenSecret := accessTokenSecret, oauth2ClientID := oauth2ClientID,
        oauth2ClientSecret := oauth2ClientSecret, oauth2RedirectURI := oauth2RedirectURI,
        oauth2Scope := oauth2Scope, oauth2AccessToken := oauth2AccessToken,
        oauth2RefreshToken := oauth2RefreshToken, oauth2TokenType := oauth2TokenType,
        oauth2ExpiresAt := oauth2ExpiresAt }
  | _ => none

/-- `json.Unmarshal` of the `server` section into `base`. -/
def decodeServerConfigInto (base : ServerConfig) : Json → Option ServerConfig
  | .jnull => some base
  | .jobj kvs => do
    let addr ← decodeStringField base.addr (jLookup kvs "addr")
    pure { addr := addr }
  | _ => none

/-- `json.Unmarshal` of the `security` section into `base`. -/
def decodeSecurityConfigInto (base : SecurityConfig) : Json → Option SecurityConfig
  | .jnull => some base
  | .jobj kvs => do
    let apiToken ← decodeStringField base.apiToken (jLookup kvs "api_token")
    pure { apiToken := apiToken }
  | _ => none

/-- `json.Unmarshal` of a whole configuration document into `base`, as
`loadOrInitConfig` performs it. -/
def decodeConfigInto (base : Config) : Json → Option Config
  | .jnull => some base
  | .jobj kvs => do
    let server ←
      match jLookup kvs "server" with
      | none => some base.server
      | some j => decodeServerConfigInto base.server j
    let security ←
      match jLookup kvs "security" with
      | none => some base.security
      | some j => decodeSecurityConfigInto base.security j
    let x ←
      match jLookup kvs "x" with
      | none => some base.x
      | some j => decodeXAuthConfigInto base.x j
    pure { server := server, security := security, x := x }
  | _ => none

/-- Embedding of `saveConfig` (app.go): the file state after a save is
the marshalled configuration (the temp-file-plus-rename discipline is
atomic, so the post-state is total). -/
def saveConfig (cfg : Config) : Option Json :=
  some (encodeConfig cfg)

/-- Embedding of `loadOrInitConfig` (app.go) over the file state
(`none` = file absent, `some j` = a file parsing as `j`), with the
random `generateToken()` output passed in as `gen`. Returns the loaded
configuration, the first-boot flag, and the file state afterwards;
`none` models the parse-error return. -/
def loadOrInitConfig (file : Option Json) (gen : String) :
    Option (Config × Bool × Option Json) :=
  match file with
  | none =>
    let cfg : Config :=
      { server := { addr := defaultServerAddr }, security := { apiToken := gen } }
    some (cfg, true, saveConfig cfg)
  | some content =>
    match decodeConfigInto { server := { addr := defaultServerAddr } } content with
    | none => none
    | some cfg0 =>
      let st1 :=
        if trimSpace cfg0.server.addr = "" then
          ({ cfg0 with server := { addr := defaultServerAddr } }, true)
        else (cfg0, false)
      let st2 :=
        if trimSpace st1.1.security.apiToken = "" then
          ({ st1.1 with security := { apiToken := gen } }, true)
        else st1
      let fileAfter := if st2.2 then saveConfig st2.1 else some content
      some (st2.1, false, fileAfter)

/-- The scheme-A credential field of `cfg` named `n` (the JSON names used
by `missingOAuth1Fields`); unknown names read as blank. -/
def oauth1FieldOf (cfg : XAuthConfig) (n : String) : String :=
  if n = "api_key" then cfg.apiKey
  else if n = "api_secret" then cfg.apiSecret
  else if n = "access_token" then cfg.accessToken
  else if n = "access_token_secret" then cfg.accessTokenSecret
  else ""

/-- C10: reading the API-protection token from an inbound request gives
the Authorization header precedence: when it is longer than 7 characters
and starts with a case-insensitive `"Bearer "` prefix, the trimmed
remainder is used and `X-API-Token` is ignored; otherwise the trimmed
`X-API-Token` value is used. Stated for header values as the Go HTTP
layer delivers them (whitespace already stripped by header parsing, so
trimming is the identity on `authorization`). -/
theorem readTokenFromRequest_bearer_precedence
    (authorization xAPIToken : String) (hnorm : trimSpace authorization = authorization) :
    (authorization.length > 7 ∧ foldEq ⟨authorization.data.take 7⟩ "Bearer " = true →
      readTokenFromRequest authorization xAPIToken = trimSpace ⟨authorization.data.drop 7⟩) ∧
    (¬ (authorization.length > 7 ∧ foldEq ⟨authorization.data.take 7⟩ "Bearer " = true) →
      readTokenFromRequest authorization xAPIToken = trimSpace xAPIToken) := by
  unfold readTokenFromRequest
  rw [hnorm]
  constructor
  · intro h
    rw [if_pos ⟨h.1, h.2⟩]
  · intro h
    rw [if_neg (fun hc => h ⟨hc.1, hc.2⟩)]

/-- Witness for `readTokenFromRequest_bearer_precedence`: both branches
at concrete headers. -/
theorem readTokenFromRequest_bearer_precedence_witness :
    readTokenFromRequest "bEaReR  tok" "other" = "tok" ∧
    readTokenFromRequest "Token abc" "  other " = "other" := by
  constructor
  · exact ((readTokenFromRequest_bearer_precedence "bEaReR  tok" "other" rfl).1
      (by decide)).trans (by decide)
  · exact ((readTokenFromRequest_bearer_precedence "Token abc" "  other " rfl).2
      (by decide)).trans (by decide)

/-- C3: whenever at least one scheme-A field is non-blank
(`hasAnyOAuth1Fields`) but some are blank (`missingOAuth1Fields` is
non-empty), `newPoster` constructs no client and fails with the
incomplete-credentials error naming the blank fields, and the named
fields are exactly the blank ones in the fixed order api_key,
api_secret, access_token, access_token_secret. -/
theorem newPoster_incomplete_oauth1
    (cfg : XAuthConfig) (h1 : hasAnyOAuth1Fields cfg = true)
    (h2 : missingOAuth1Fields cfg ≠ []) :
    newPoster cfg =
      .error ("incomplete OAuth1 config, missing: " ++
        String.intercalate ", " (missingOAuth1Fields cfg)) ∧
    missingOAuth1Fields cfg =
      (["api_key", "api_secret", "access_token", "access_token_secret"].filter
        fun n => trimSpace (oauth1FieldOf cfg n) = "") := by
  constructor
  · unfold newPoster
    rw [if_pos h1, if_pos h2]
  · unfold missingOAuth1Fields oauth1FieldOf
    by_cases ha : trimSpace cfg.apiKey = "" <;>
      by_cases hb : trimSpace cfg.apiSecret = "" <;>
        by_cases hc : trimSpace cfg.accessToken = "" <;>
          by_cases hd : trimSpace cfg.accessTokenSecret = "" <;>
            simp [ha, hb, hc, hd, List.filter]

/-- Witness for `newPoster_incomplete_oauth1` at a configuration with
only the API key set. -/
theorem newPoster_incomplete_oauth1_witness :
    newPoster { apiKey := "k" } =
      .error "incomplete OAuth1 config, missing: api_secret, access_token, access_token_secret" ∧
    missingOAuth1Fields { apiKey := "k" } =
      ["api_secret", "access_token", "access_token_secret"] := by
  have h := newPoster_incomplete_oauth1 { apiKey := "k" } (by decide) (by decide)
  refine ⟨h.1.trans (congrArg Except.error ?_), h.2.trans (by decide)⟩
  decide

/-- C5: `newPoster` resolves credentials by ordered first match: any
non-blank scheme-A field selects the scheme-A branch — incomplete error
or an `oauth1` client — regardless of the scheme-B token; otherwise a
non-blank OAuth2 access token yields a scheme-B (`oauth2_user_token`)
client carrying no signing credential; otherwise the
missing-credentials error. -/
theorem newPoster_resolution_order (cfg : XAuthConfig) :
    (hasAnyOAuth1Fields cfg = true →
      (missingOAuth1Fields cfg = [] →
        newPoster cfg =
          .ok { client := { hasOAuth1Auth := true }, authMode := "oauth1" }) ∧
      (missingOAuth1Fields cfg ≠ [] →
        newPoster cfg =
          .error ("incomplete OAuth1 config, missing: " ++
            String.intercalate ", " (missingOAuth1Fields cfg)))) ∧
    (hasAnyOAuth1Fields cfg = false → trimSpace cfg.oauth2AccessToken ≠ "" →
      ∃ client, newPoster cfg = .ok { client := client, authMode := "oauth2_user_token" } ∧
        client.hasOAuth1Auth = false) ∧
    (hasAnyOAuth1Fields cfg = false → trimSpace cfg.oauth2AccessToken = "" →
      newPoster cfg =
        .error "missing x auth configuration (set OAuth1 fields or oauth2_access_token)") := by
  refine ⟨fun h1 => ⟨fun h2 => ?_, fun h2 => ?_⟩, fun h1 h2 => ?_, fun h1 h2 => ?_⟩
  · simp [newPoster, h1, h2]
  · simp [newPoster, h1, h2]
  · simp only [newPoster, h1, Bool.false_eq_true, if_false, if_pos h2]
    exact ⟨_, rfl, by split <;> rfl⟩
  · simp [newPoster, h1, h2]

/-- Witness for `newPoster_resolution_order`: scheme A wins over a
present scheme-B token; a lone scheme-B token builds an `oauth2` client;
all-blank credentials fail. -/
theorem newPoster_resolution_order_witness :
    newPoster
        { apiKey := "k", apiSecret := "s", accessToken := "t",
          accessTokenSecret := "u", oauth2AccessToken := "B" } =
      .ok { client := { hasOAuth1Auth := true }, authMode := "oauth1" } ∧
    (∃ client,
      newPoster { oauth2AccessToken := "B" } =
        .ok { client := client, authMode := "oauth2_user_token" } ∧
      client.hasOAuth1Auth = false) ∧
    newPoster {} =
      .error "missing x auth configuration (set OAuth1 fields or oauth2_access_token)" := by
  refine ⟨?_, ?_, ?_⟩
  · exact ((newPoster_resolution_order
      { apiKey := "k", apiSecret := "s", accessToken := "t",
        accessTokenSecret := "u", oauth2AccessToken := "B" }).1 (by decide)).1 (by decide)
  · exact (newPoster_resolution_order { oauth2AccessToken := "B" }).2.1 (by decide) (by decide)
  · exact (newPoster_resolution_order {}).2.2 (by decide) (by decide)

/-- The order-preserving de-duplication the spec describes: keep each
element's first occurrence, dropping later duplicates. -/
def dedupFirst : List String → List String
  | [] => []
  | x :: xs => x :: dedupFirst (xs.filter fun y => y != x)
termination_by l => l.length
decreasing_by
  simp only [List.length_cons]
  exact Nat.lt_succ_of_le (List.length_filter_le _ _)

theorem dedupFirst_cons (x : String) (xs : List String) :
    dedupFirst (x :: xs) = x :: dedupFirst (xs.filter fun y => y != x) := by
  rw [dedupFirst]

theorem uniqueNonEmptyGo_eq_dedupFirst (l : List String) (seen : List String) :
    uniqueNonEmptyGo seen l =
      dedupFirst (l.filter fun x => x != "" && !(seen.contains x)) := by
  induction l generalizing seen with
  | nil => simp [uniqueNonEmptyGo, dedupFirst]
  | cons x rest ih =>
    simp only [uniqueNonEmptyGo, List.filter_cons]
    by_cases hx : x = ""
    · subst hx
      rw [if_pos rfl, ih]
      have hcond : ("" != "" && !(seen.contains "")) = false := by simp
      rw [hcond]
      simp only [Bool.false_eq_true, if_false]
    · rw [if_neg hx]
      by_cases hs : seen.contains x = true
      · rw [if_pos hs, ih]
        have hcond : (x != "" && !(seen.contains x)) = false := by rw [hs]; simp
        rw [hcond]
        simp only [Bool.false_eq_true, if_false]
      · rw [if_neg hs, ih (x :: seen)]
        have hcond : (x != "" && !(seen.contains x)) = true := by
          simp only [Bool.and_eq_true, bne_iff_ne, ne_eq, Bool.not_eq_true]
          exact ⟨hx, by simpa using hs⟩
        rw [hcond, if_pos rfl, dedupFirst_cons, List.filter_filter]
        congr 1
        apply congrArg
        apply List.filter_congr
        intro a _
        simp only [List.contains_cons, Bool.not_or, bne]
        simp [Bool.and_assoc, Bool.and_comm, Bool.and_left_comm]

/-- `uniqueNonEmpty` is exactly first-occurrence de-duplication of the
non-empty entries. -/
theorem uniqueNonEmpty_eq_dedupFirst (l : List String) :
    uniqueNonEmpty l = dedupFirst (l.filter fun x => x != "") := by
  rw [uniqueNonEmpty, uniqueNonEmptyGo_eq_dedupFirst]
  congr 1
  apply List.filter_congr
  intro a _
  simp [List.contains]

/-- C8: the effective-scopes function returns the fixed four-scope
default on an empty input, and otherwise the input with empty entries
removed and duplicates removed keeping first occurrences; in particular
`["a","a","b"]` yields `["a","b"]`. -/
theorem effectiveOAuth2Scopes_spec (scopes : List String) :
    (scopes = [] →
      effectiveOAuth2Scopes scopes =
        ["tweet.read", "tweet.write", "users.read", "offline.access"]) ∧
    (scopes ≠ [] →
      effectiveOAuth2Scopes scopes = dedupFirst (scopes.filter fun s => s != "")) ∧
    effectiveOAuth2Scopes ["a", "a", "b"] = ["a", "b"] := by
  refine ⟨fun h => by simp [effectiveOAuth2Scopes, h], fun h => ?_, by decide⟩
  unfold effectiveOAuth2Scopes
  rw [if_neg (by simpa using h)]
  exact uniqueNonEmpty_eq_dedupFirst scopes

/-- Witness for `effectiveOAuth2Scopes_spec`: both the defaulting branch
and the de-duplicating branch at concrete scope lists. -/
theorem effectiveOAuth2Scopes_spec_witness :
    effectiveOAuth2Scopes [] =
      ["tweet.read", "tweet.write", "users.read", "offline.access"] ∧
    effectiveOAuth2Scopes ["a", "a", "b"] =
      dedupFirst (["a", "a", "b"].filter fun s => s != "") := by
  exact ⟨(effectiveOAuth2Scopes_spec []).1 rfl,
    (effectiveOAuth2Scopes_spec ["a", "a", "b"]).2.1 (by decide)⟩

theorem lookupFoldNonEmpty_eq_find? (key : String) (kvs : List (String × Json)) :
    lookupFoldNonEmpty key kvs =
      (kvs.find? fun kv => foldEq kv.1 key && stringify kv.2 != "").map
        fun kv => stringify kv.2 := by
  induction kvs with
  | nil => rfl
  | cons kv rest ih =>
    obtain ⟨k, raw⟩ := kv
    simp only [lookupFoldNonEmpty, List.find?]
    by_cases h1 : foldEq k key = true
    · by_cases h2 : stringify raw = ""
      · rw [if_neg (fun hc => hc.2 h2)]
        have hb : (foldEq k key && stringify raw != "") = false := by simp [h2]
        rw [hb]
        exact ih
      · rw [if_pos ⟨h1, h2⟩]
        have hb : (foldEq k key && stringify raw != "") = true := by
          rw [h1, bne_iff_ne.mpr h2, Bool.and_self]
        rw [hb]
        rfl
    · rw [if_neg (fun hc => h1 hc.1)]
      have hb : (foldEq k key && stringify raw != "") = false := by
        simp [Bool.and_eq_false_iff, h1]
      rw [hb]
      exact ih

theorem levelSearch_eq_findSome? (keys : List String) (kvs : List (String × Json)) :
    levelSearch keys kvs = keys.findSome? fun key => lookupFoldNonEmpty key kvs := by
  induction keys with
  | nil => rfl
  | cons key rest ih =>
    simp only [levelSearch]
    cases h : lookupFoldNonEmpty key kvs <;> simp [List.findSome?_cons, h, ih]

theorem searchNestedVals_eq_find? (kvs : List (String × Json)) (keys : List String) :
    searchNestedVals kvs keys =
      ((kvs.map fun kv => findFirstByPriority kv.2 keys).find? fun s => s != "").getD "" := by
  induction kvs with
  | nil => rfl
  | cons kv rest ih =>
    simp only [searchNestedVals, List.map_cons, List.find?]
    by_cases h : findFirstByPriority kv.2 keys = ""
    · rw [if_neg (fun hc => hc h)]
      have hb : (findFirstByPriority kv.2 keys != "") = false := by simp [h]
      rw [hb]
      exact ih
    · rw [if_pos h, bne_iff_ne.mpr h]
      rfl

theorem searchNestedList_eq_find? (xs : List Json) (keys : List String) :
    searchNestedList xs keys =
      ((xs.map fun x => findFirstByPriority x keys).find? fun s => s != "").getD "" := by
  induction xs with
  | nil => rfl
  | cons x rest ih =>
    simp only [searchNestedList, List.map_cons, List.find?]
    by_cases h : findFirstByPriority x keys = ""
    · rw [if_neg (fun hc => hc h)]
      have hb : (findFirstByPriority x keys != "") = false := by simp [h]
      rw [hb]
      exact ih
    · rw [if_pos h, bne_iff_ne.mpr h]
      rfl

/-- C2: `extractMediaRef` runs one search for the id with priority
`media_id_string` > `media_id` > `id` and an independent search for
`media_key`; each search checks the current map level first —
case-insensitive key match with a non-empty stringified value, in
priority order — and only when that yields nothing recurses into the
nested values (respectively array elements) returning the first
non-empty result; the two quoted examples evaluate as the spec states. -/
theorem extractMediaRef_priority_search :
    (∀ payload : Json,
      extractMediaRef payload =
        { id := findFirstByPriority payload ["media_id_string", "media_id", "id"]
          mediaKey := findFirstByPriority payload ["media_key"] }) ∧
    (∀ (kvs : List (String × Json)) (keys : List String),
      findFirstByPriority (.jobj kvs) keys =
        match keys.findSome? fun key =>
            (kvs.find? fun kv => foldEq kv.1 key && stringify kv.2 != "").map
              fun kv => stringify kv.2 with
        | some s => s
        | none =>
          ((kvs.map fun kv => findFirstByPriority kv.2 keys).find? fun s => s != "").getD "") ∧
    (∀ (xs : List Json) (keys : List String),
      findFirstByPriority (.jarr xs) keys =
        ((xs.map fun x => findFirstByPriority x keys).find? fun s => s != "").getD "") ∧
    extractMediaRef
        (.jobj [("data", .jobj [("media_id_string", .jstr "9"), ("media_key", .jstr "3_9")])]) =
      { id := "9", mediaKey := "3_9" } ∧
    extractMediaRef (.jobj [("id", .jstr "9"), ("media_id_string", .jstr "7")]) =
      { id := "7", mediaKey := "" } := by
  refine ⟨fun payload => rfl, fun kvs keys => ?_, fun xs keys => ?_, by decide, by decide⟩
  · show (match levelSearch keys kvs with
      | some s => s
      | none => searchNestedVals kvs keys) = _
    rw [levelSearch_eq_findSome?]
    simp only [lookupFoldNonEmpty_eq_find?]
    cases h : keys.findSome? fun key =>
        (kvs.find? fun kv => foldEq kv.1 key && stringify kv.2 != "").map
          fun kv => stringify kv.2 <;>
      simp [h, searchNestedVals_eq_find?]
  · show searchNestedList xs keys = _
    exact searchNestedList_eq_find? xs keys

/-- C4: when the first post submission fails, `CreateTweet` retries
exactly once with `media.media_keys` substituted for `media.media_ids`
and returns that second submission's result — provided the
de-duplicated non-blank media keys are non-empty — and otherwise
returns the first submission's error unchanged, with no retry. -/
theorem createTweet_retry_with_media_keys
    (submit : TweetBody → Except String Json) (text : String)
    (media : List MediaRef) (e : String)
    (hfail : submit (tweetFirstBody text media) = .error e) :
    (uniqueNonEmpty (mediaKeysOf media) ≠ [] →
      createTweet submit text media = submit (tweetRetryBody text media)) ∧
    (uniqueNonEmpty (mediaKeysOf media) = [] →
      createTweet submit text media = .error e) := by
  constructor
  · intro hkeys
    simp only [createTweet, hfail]
    rw [if_pos hkeys]
  · intro hkeys
    simp only [createTweet, hfail]
    rw [if_neg (fun hc => hc hkeys)]

/-- Witness for `createTweet_retry_with_media_keys`: a submit oracle
rejecting `media_ids` bodies and accepting `media_keys` bodies retries
and returns the second result; with no keys available the first error
is returned unchanged. -/
theorem createTweet_retry_with_media_keys_witness :
    createTweet
        (fun body =>
          match body.media with
          | some (.keys _) => .ok .jnull
          | _ => .error "first failure")
        "hi" [{ id := "1", mediaKey := "k1" }] =
      .ok .jnull ∧
    createTweet
        (fun body =>
          match body.media with
          | some (.keys _) => .ok .jnull
          | _ => .error "first failure")
        "hi" [{ id := "1" }] =
      .error "first failure" := by
  constructor
  · exact ((createTweet_retry_with_media_keys
      (fun body =>
        match body.media with
        | some (.keys _) => .ok .jnull
        | _ => .error "first failure")
      "hi" [{ id := "1", mediaKey := "k1" }] "first failure" rfl).1 (by decide)).trans rfl
  · exact ((createTweet_retry_with_media_keys
      (fun body =>
        match body.media with
        | some (.keys _) => .ok .jnull
        | _ => .error "first failure")
      "hi" [{ id := "1" }] "first failure" rfl).2 (by decide))

/-- A poster resolved in scheme-B mode holds no OAuth1 signing
credential (`client.Auth` is nil): only the OAuth1 branch of
`newPoster` attaches one. -/
theorem newPoster_oauth2_no_signing (cfg : XAuthConfig) (p : Poster)
    (hp : newPoster cfg = .ok p) (hmode : p.authMode = "oauth2_user_token") :
    p.client.hasOAuth1Auth = false := by
  simp only [newPoster] at hp
  split_ifs at hp <;>
    first
    | exact Except.noConfusion hp
    | (injection hp with hp
       subst hp
       rfl)
    | (injection hp with hp
       subst hp
       exact absurd hmode (by simp))

/-- C9: for a poster resolved as a scheme-B (bearer-token) client, the
legacy v1 fallback is skipped entirely: the upload outcome does not
depend on what the v1 call would return, and when the three remaining
strategies all fail the aggregated error names exactly those three
failure reasons. -/
theorem uploadMedia_skips_v1_for_scheme_b (cfg : XAuthConfig) (p : Poster)
    (o : XClientOracle) (v1r : Except String Json) (v1raw : String)
    (hp : newPoster cfg = .ok p) (hmode : p.authMode = "oauth2_user_token") :
    uploadMedia p { o with v1Response := v1r, v1Raw := v1raw } = uploadMedia p o ∧
    (∀ e1 e2 e3,
      simpleAttempt o .media = .error e1 →
      simpleAttempt o .media_data = .error e2 →
      uploadMediaChunked o = .error e3 →
      uploadMedia p o =
        .error ("media upload failed: " ++ String.intercalate " | " [e1, e2, e3])) := by
  have hauth : p.client.hasOAuth1Auth = false :=
    newPoster_oauth2_no_signing cfg p hp hmode
  constructor
  · simp only [uploadMedia, hauth, Bool.false_eq_true, if_false]
    rfl
  · intro e1 e2 e3 h1 h2 h3
    simp only [uploadMedia, h1, h2, h3, hauth, Bool.false_eq_true, if_false]

/-- Witness for `uploadMedia_skips_v1_for_scheme_b`: with a bearer-token
poster and all three non-legacy strategies failing, the result is the
three-entry aggregate even though the v1 oracle would have succeeded,
and changing the v1 oracle does not change the result. -/
theorem uploadMedia_skips_v1_for_scheme_b_witness :
    uploadMedia
        { client := { hasOAuth1Auth := false, accessToken := "B" },
          authMode := "oauth2_user_token" }
        { upload := fun f => match f with
            | .media => .error "neta"
            | .media_data => .error "netb"
          initializeUpload := .error "netc"
          appendUpload := fun _ => none
          finalizeUpload := .error "unused"
          v1Response := .ok (.jobj [("media_id_string", .jstr "42")]) } =
      .error "media upload failed: neta | netb | netc" := by
  have h := uploadMedia_skips_v1_for_scheme_b { oauth2AccessToken := "B" }
    { client := { hasOAuth1Auth := false, accessToken := "B" },
      authMode := "oauth2_user_token" }
    { upload := fun f => match f with
        | .media => .error "neta"
        | .media_data => .error "netb"
      initializeUpload := .error "netc"
      appendUpload := fun _ => none
      finalizeUpload := .error "unused"
      v1Response := .ok (.jobj [("media_id_string", .jstr "42")]) }
    (.error "ignored") "" (by rfl) rfl
  exact (h.2 "neta" "netb" "netc" rfl rfl rfl).trans (congrArg Except.error (by decide))

/-- The ordered list of strategy outcomes `UploadMedia` (app.go) works
through for one blob: simple upload (`media`), simple upload
(`media_data`), chunked, and — only for a signing-credential client —
the legacy v1 fallback. -/
def strategyResults (p : Poster) (o : XClientOracle) : List (Except String MediaRef) :=
  [simpleAttempt o .media, simpleAttempt o .media_data, uploadMediaChunked o] ++
    (if p.client.hasOAuth1Auth then [uploadMediaV1 p o] else [])

/-- First successful outcome of an attempt list, in order. -/
def firstSuccess : List (Except String MediaRef) → Option MediaRef
  | [] => none
  | .ok ref :: _ => some ref
  | .error _ :: rest => firstSuccess rest

/-- The recorded failure reasons of an attempt list, in order. -/
def failureReasons : List (Except String MediaRef) → List String
  | [] => []
  | .ok _ :: rest => failureReasons rest
  | .error e :: rest => e :: failureReasons rest

/-- A successful chunked upload always carries a non-empty id: the
finalize reference is backfilled with the initialize-phase media id,
which was checked non-empty. -/
theorem uploadMediaChunked_ok_id (o : XClientOracle) (ref : MediaRef)
    (h : uploadMediaChunked o = .ok ref) : ref.id ≠ "" := by
  simp only [uploadMediaChunked] at h
  split at h
  · exact Except.noConfusion h
  · split at h
    · exact Except.noConfusion h
    · split at h
      · exact Except.noConfusion h
      · split at h
        · exact Except.noConfusion h
        · injection h with h
          rw [← h]
          split <;> split <;> simp_all

/-- A successful v1 legacy upload always carries a non-empty id. -/
theorem uploadMediaV1_ok_id (p : Poster) (o : XClientOracle) (ref : MediaRef)
    (h : uploadMediaV1 p o = .ok ref) : ref.id ≠ "" := by
  simp only [uploadMediaV1] at h
  split at h
  · exact Except.noConfusion h
  · split at h
    · exact Except.noConfusion h
    · split at h
      · exact Except.noConfusion h
      · rename_i hid
        injection h with h
        rw [← h]
        exact hid

/-- A successful simple-upload attempt has a non-empty id or key, by
its own post-extraction check. -/
theorem simpleAttempt_ok_nonempty (o : XClientOracle) (f : PayloadField) (ref : MediaRef)
    (h : simpleAttempt o f = .ok ref) : ref.id ≠ "" ∨ ref.mediaKey ≠ "" := by
  simp only [simpleAttempt] at h
  split at h
  · exact Except.noConfusion h
  · split at h
    · rename_i hne
      injection h with h
      rw [← h]
      exact hne
    · exact Except.noConfusion h

theorem uploadMedia_chain_cases (p : Poster) (o : XClientOracle) :
    match firstSuccess (strategyResults p o) with
    | some ref => uploadMedia p o = .ok ref
    | none =>
      uploadMedia p o =
        .error ("media upload failed: " ++
          String.intercalate " | " (failureReasons (strategyResults p o))) := by
  by_cases hauth : p.client.hasOAuth1Auth = true <;>
    cases h1 : simpleAttempt o .media <;>
      cases h2 : simpleAttempt o .media_data <;>
        cases h3 : uploadMediaChunked o <;>
          cases h4 : uploadMediaV1 p o <;>
            simp [uploadMedia, strategyResults, firstSuccess, failureReasons,
              h1, h2, h3, h4, hauth]

/-- C1: `UploadMedia` tries the strategies in the fixed order simple-A
(`media`), simple-B (`media_data`), chunked, legacy v1 (when
attempted), returns the first strategy outcome that succeeds —
necessarily with a non-empty id or key — discarding earlier soft
failures, and only when every attempted strategy fails returns the
error aggregating every attempted strategy's failure reason,
pipe-delimited, in strategy order. -/
theorem uploadMedia_strategy_chain (p : Poster) (o : XClientOracle) :
    (∀ ref, firstSuccess (strategyResults p o) = some ref →
      uploadMedia p o = .ok ref) ∧
    (firstSuccess (strategyResults p o) = none →
      uploadMedia p o =
        .error ("media upload failed: " ++
          String.intercalate " | " (failureReasons (strategyResults p o)))) ∧
    (∀ r ∈ strategyResults p o, ∀ ref, r = .ok ref → ref.id ≠ "" ∨ ref.mediaKey ≠ "") := by
  refine ⟨?_, ?_, ?_⟩
  · intro ref h
    have hc := uploadMedia_chain_cases p o
    rw [h] at hc
    exact hc
  · intro h
    have hc := uploadMedia_chain_cases p o
    rw [h] at hc
    exact hc
  · intro r hr ref hok
    subst hok
    by_cases hauth : p.client.hasOAuth1Auth = true
    · simp only [strategyResults, hauth, if_true, List.cons_append, List.nil_append,
        List.mem_cons, List.not_mem_nil, or_false] at hr
      rcases hr with h | h | h | h
      · exact simpleAttempt_ok_nonempty o .media ref h.symm
      · exact simpleAttempt_ok_nonempty o .media_data ref h.symm
      · exact Or.inl (uploadMediaChunked_ok_id o ref h.symm)
      · exact Or.inl (uploadMediaV1_ok_id p o ref h.symm)
    · simp only [strategyResults] at hr
      rw [if_neg hauth, List.append_nil] at hr
      simp only [List.mem_cons, List.not_mem_nil, or_false] at hr
      rcases hr with h | h | h
      · exact simpleAttempt_ok_nonempty o .media ref h.symm
      · exact simpleAttempt_ok_nonempty o .media_data ref h.symm
      · exact Or.inl (uploadMediaChunked_ok_id o ref h.symm)

/-- Witness for `uploadMedia_strategy_chain`: the chunked strategy
rescues an upload whose two simple attempts failed (success supersedes
the recorded soft failures), and an all-failing oracle yields the
four-entry aggregated error for a signing-credential client. -/
theorem uploadMedia_strategy_chain_witness :
    uploadMedia { client := { hasOAuth1Auth := true }, authMode := "oauth1" }
        { upload := fun _ => .error "neta"
          initializeUpload := .ok (.jobj [("media_id_string", .jstr "777"),
            ("media_key", .jstr "3_777")])
          appendUpload := fun _ => none
          finalizeUpload := .ok (.jobj [])
          v1Response := .error "unused" } =
      .ok { id := "777", mediaKey := "3_777" } ∧
    uploadMedia { client := { hasOAuth1Auth := true }, authMode := "oauth1" }
        { upload := fun f => match f with
            | .media => .error "ea"
            | .media_data => .error "eb"
          initializeUpload := .error "ec"
          appendUpload := fun _ => none
          finalizeUpload := .error "unused"
          v1Response := .error "ed" } =
      .error "media upload failed: ea | eb | ec | ed" := by
  constructor
  · exact (uploadMedia_strategy_chain
      { client := { hasOAuth1Auth := true }, authMode := "oauth1" }
      { upload := fun _ => .error "neta"
        initializeUpload := .ok (.jobj [("media_id_string", .jstr "777"),
          ("media_key", .jstr "3_777")])
        appendUpload := fun _ => none
        finalizeUpload := .ok (.jobj [])
        v1Response := .error "unused" }).1
      { id := "777", mediaKey := "3_777" } (by decide)
  · exact ((uploadMedia_strategy_chain
      { client := { hasOAuth1Auth := true }, authMode := "oauth1" }
      { upload := fun f => match f with
          | .media => .error "ea"
          | .media_data => .error "eb"
        initializeUpload := .error "ec"
        appendUpload := fun _ => none
        finalizeUpload := .error "unused"
        v1Response := .error "ed" }).2.1 (by decide)).trans
      (congrArg Except.error (by decide))

/-- C6: applying a refreshed OAuth2 token to the credential config fails
exactly when the token's `access_token` stringifies blank, and the
failure leaves the config completely unchanged; on success the stored
expiry prefers a convertible positive `expires_at`, else `now +
expires_in` for a positive `expires_in` (under a non-negative clock),
else stays unchanged — while refresh token, token type and scope are
optional and never cause failure. -/
theorem applyOAuth2TokenToConfig_spec (cfg : XAuthConfig) (token : OAuth2Token) (now : Int) :
    (trimSpace (stringifyOpt token.accessToken) = "" →
      applyOAuth2TokenToConfig cfg token now =
        (cfg, some "oauth2 token does not contain access_token")) ∧
    (trimSpace (stringifyOpt token.accessToken) ≠ "" →
      (applyOAuth2TokenToConfig cfg token now).2 = none) ∧
    (∀ v, trimSpace (stringifyOpt token.accessToken) ≠ "" →
      toInt64 token.expiresAt = some v → 0 < v →
      (applyOAuth2TokenToConfig cfg token now).1.oauth2ExpiresAt = v) ∧
    (∀ w, trimSpace (stringifyOpt token.accessToken) ≠ "" →
      toInt64 token.expiresAt = none → toInt64 token.expiresIn = some w →
      0 < w → 0 ≤ now →
      (applyOAuth2TokenToConfig cfg token now).1.oauth2ExpiresAt = now + w) ∧
    (trimSpace (stringifyOpt token.accessToken) ≠ "" →
      toInt64 token.expiresAt = none →
      (∀ w, toInt64 token.expiresIn = some w → w ≤ 0) →
      (applyOAuth2TokenToConfig cfg token now).1.oauth2ExpiresAt =
        cfg.oauth2ExpiresAt) := by
  refine ⟨fun h => ?_, fun h => ?_, fun v h hea hv => ?_,
    fun w h hea hei hw hnow => ?_, fun h hea hall => ?_⟩
  · simp only [applyOAuth2TokenToConfig]
    rw [if_pos h]
  · simp only [applyOAuth2TokenToConfig]
    rw [if_neg h]
  · simp only [applyOAuth2TokenToConfig, hea]
    rw [if_neg h, if_pos hv]
  · have hpos : (0:Int) < now + w := by omega
    simp only [applyOAuth2TokenToConfig, hea, hei]
    rw [if_neg h, if_pos hw, if_pos hpos]
  · simp only [applyOAuth2TokenToConfig, hea]
    rw [if_neg h]
    cases hei : toInt64 token.expiresIn with
    | none =>
      simp only [hei]
      rw [if_neg (lt_irrefl (0:Int))]
      split <;> first | rfl | (split <;> rfl)
    | some w =>
      simp only [hei]
      rw [if_neg (not_lt.mpr (hall w hei)), if_neg (lt_irrefl (0:Int))]
      split <;> first | rfl | (split <;> rfl)

/-- Witness for `applyOAuth2TokenToConfig_spec`: a token without an
access token fails atomically; a token with `expires_in = 10` applied at
clock 5 stores expiry 15. -/
theorem applyOAuth2TokenToConfig_spec_witness :
    applyOAuth2TokenToConfig {} {} 0 =
      ({}, some "oauth2 token does not contain access_token") ∧
    (applyOAuth2TokenToConfig {}
        { accessToken := some (.jstr "A"), expiresIn := some (.jnum 10) } 5).1.oauth2ExpiresAt =
      15 := by
  constructor
  · exact (applyOAuth2TokenToConfig_spec {} {} 0).1 rfl
  · exact ((applyOAuth2TokenToConfig_spec {}
      { accessToken := some (.jstr "A"), expiresIn := some (.jnum 10) } 5).2.2.2.1
      10 (by decide) rfl rfl (by decide) (by decide)).trans (by decide)

theorem jLookup_omitFields (schema : List (String × Option Json)) (key : String) :
    jLookup (omitFields schema) key =
      (schema.find? fun f => f.2.isSome && f.1 == key).bind Prod.snd := by
  induction schema with
  | nil => rfl
  | cons f rest ih =>
    obtain ⟨n, v⟩ := f
    cases v with
    | none => simp [omitFields, List.find?, ih]
    | some j =>
      simp only [omitFields, jLookup, List.find?, Option.isSome_some, Bool.true_and]
      cases h : (n == key) with
      | true =>
        simp only [h]
        rfl
      | false =>
        simp only [h]
        exact ih

theorem decodeStringField_omit (v : String) :
    decodeStringField "" (if v = "" then none else some (.jstr v)) = some v := by
  by_cases h : v = ""
  · rw [if_pos h, h]
    rfl
  · rw [if_neg h]
    rfl

theorem decodeIntField_omit (v : Int) :
    decodeIntField 0 (if v = 0 then none else some (.jnum v)) = some v := by
  by_cases h : v = 0
  · rw [if_pos h, h]
    rfl
  · rw [if_neg h]
    rfl

theorem decodeStringListField_jarr (v : List String) :
    decodeStringListField [] (some (.jarr (v.map .jstr))) = some v := by
  simp only [decodeStringListField]
  induction v with
  | nil => rfl
  | cons a rest ih => simp [decodeStringList, ih]

theorem decodeStringListField_omit (v : List String) :
    decodeStringListField [] (if v = [] then none else some (.jarr (v.map .jstr))) =
      some v := by
  by_cases h : v = []
  · rw [if_pos h, h]
    rfl
  · rw [if_neg h]
    exact decodeStringListField_jarr v

theorem decodeXAuthConfigInto_encode (x : XAuthConfig) :
    decodeXAuthConfigInto {} (encodeXAuthConfig x) = some x := by
  have l1 : jLookup (omitFields (xAuthSchema x)) "api_key" =
      if x.apiKey = "" then none else some (.jstr x.apiKey) := by
    rw [jLookup_omitFields]
    by_cases h : x.apiKey = "" <;> simp [xAuthSchema, List.find?, h]
  have l2 : jLookup (omitFields (xAuthSchema x)) "api_secret" =
      if x.apiSecret = "" then none else some (.jstr x.apiSecret) := by
    rw [jLookup_omitFields]
    by_cases h : x.apiSecret = "" <;> simp [xAuthSchema, List.find?, h]
  have l3 : jLookup (omitFields (xAuthSchema x)) "access_token" =
      if x.accessToken = "" then none else some (.jstr x.accessToken) := by
    rw [jLookup_omitFields]
    by_cases h : x.accessToken = "" <;> simp [xAuthSchema, List.find?, h]
  have l4 : jLookup (omitFields (xAuthSchema x)) "access_token_secret" =
      if x.accessTokenSecret = "" then none else some (.jstr x.accessTokenSecret) := by
    rw [jLookup_omitFields]
    by_cases h : x.accessTokenSecret = "" <;> simp [xAuthSchema, List.find?, h]
  have l5 : jLookup (omitFields (xAuthSchema x)) "oauth2_client_id" =
      if x.oauth2ClientID = "" then none else some (.jstr x.oauth2ClientID) := by
    rw [jLookup_omitFields]
    by_cases h : x.oauth2ClientID = "" <;> simp [xAuthSchema, List.find?, h]
  have l6 : jLookup (omitFields (xAuthSchema x)) "oauth2_client_secret" =
      if x.oauth2ClientSecret = "" then none else some (.jstr x.oauth2ClientSecret) := by
    rw [jLookup_omitFields]
    by_cases h : x.oauth2ClientSecret = "" <;> simp [xAuthSchema, List.find?, h]
  have l7 : jLookup (omitFields (xAuthSchema x)) "oauth2_redirect_uri" =
      if x.oauth2RedirectURI = "" then none else some (.jstr x.oauth2RedirectURI) := by
    rw [jLookup_omitFields]
    by_cases h : x.oauth2RedirectURI = "" <;> simp [xAuthSchema, List.find?, h]
  have l8 : jLookup (omitFields (xAuthSchema x)) "oauth2_scope" =
      if x.oauth2Scope = [] then none else some (.jarr (x.oauth2Scope.map .jstr)) := by
    rw [jLookup_omitFields]
    by_cases h : x.oauth2Scope = [] <;> simp [xAuthSchema, List.find?, h]
  have l9 : jLookup (omitFields (xAuthSchema x)) "oauth2_access_token" =
      if x.oauth2AccessToken = "" then none else some (.jstr x.oauth2AccessToken) := by
    rw [jLookup_omitFields]
    by_cases h : x.oauth2AccessToken = "" <;> simp [xAuthSchema, List.find?, h]
  have l10 : jLookup (omitFields (xAuthSchema x)) "oauth2_refresh_token" =
      if x.oauth2RefreshToken = "" then none else some (.jstr x.oauth2RefreshToken) := by
    rw [jLookup_omitFields]
    by_cases h : x.oauth2RefreshToken = "" <;> simp [xAuthSchema, List.find?, h]
  have l11 : jLookup (omitFields (xAuthSchema x)) "oauth2_token_type" =
      if x.oauth2TokenType = "" then none else some (.jstr x.oauth2TokenType) := by
    rw [jLookup_omitFields]
    by_cases h : x.oauth2TokenType = "" <;> simp [xAuthSchema, List.find?, h]
  have l12 : jLookup (omitFields (xAuthSchema x)) "oauth2_expires_at" =
      if x.oauth2ExpiresAt = 0 then none else some (.jnum x.oauth2ExpiresAt) := by
    rw [jLookup_omitFields]
    by_cases h : x.oauth2ExpiresAt = 0 <;> simp [xAuthSchema, List.find?, h]
  simp only [encodeXAuthConfig, decodeXAuthConfigInto,
    l1, l2, l3, l4, l5, l6, l7, l8, l9, l10, l11, l12,
    decodeStringField_omit, decodeIntField_omit, decodeStringListField_omit,
    Option.bind_eq_bind, Option.some_bind]
  rfl

theorem decodeConfigInto_encode (cfg : Config) :
    decodeConfigInto { server := { addr := defaultServerAddr } } (encodeConfig cfg) =
      some cfg := by
  simp [encodeConfig, decodeConfigInto, jLookup, List.find?, decodeServerConfigInto,
    decodeSecurityConfigInto, decodeStringField, decodeXAuthConfigInto_encode]

/-- C7 (amended): for a complete configuration — non-blank server address
and non-blank API token — saving and then loading round-trips to an
equal configuration, reports `isFirstBoot = false`, and performs no
backfill rewrite of the stored file. -/
theorem loadOrInit_roundtrip_complete (cfg : Config) (gen : String)
    (haddr : trimSpace cfg.server.addr ≠ "") (htok : trimSpace cfg.security.apiToken ≠ "") :
    loadOrInitConfig (saveConfig cfg) gen = some (cfg, false, saveConfig cfg) := by
  simp only [saveConfig, loadOrInitConfig, decodeConfigInto_encode]
  rw [if_neg haddr]
  simp only
  rw [if_neg htok]
  simp

/-- Witness for `loadOrInit_roundtrip_complete` at a concrete complete
configuration. -/
theorem loadOrInit_roundtrip_complete_witness :
    loadOrInitConfig
        (saveConfig
          { server := { addr := ":9" }, security := { apiToken := "T" },
            x := { apiKey := "k", oauth2Scope := ["a", "b"], oauth2ExpiresAt := 12 } })
        "G" =
      some
        ({ server := { addr := ":9" }, security := { apiToken := "T" },
            x := { apiKey := "k", oauth2Scope := ["a", "b"], oauth2ExpiresAt := 12 } },
          false,
          saveConfig
            { server := { addr := ":9" }, security := { apiToken := "T" },
              x := { apiKey := "k", oauth2Scope := ["a", "b"], oauth2ExpiresAt := 12 } }) := by
  exact loadOrInit_roundtrip_complete
    { server := { addr := ":9" }, security := { apiToken := "T" },
      x := { apiKey := "k", oauth2Scope := ["a", "b"], oauth2ExpiresAt := 12 } }
    "G" (by decide) (by decide)

/-- Counterexample to C7 as stated for every configuration: a saved
configuration with a blank API token is backfilled on load (the token is
regenerated — modelled here by the generator output `"G"`, never empty
in the source), so the loaded configuration differs from the saved
one. -/
theorem loadOrInit_roundtrip_counterexample :
    ((loadOrInitConfig (saveConfig { server := { addr := ":8080" } }) "G").map
      fun r => (r.1, r.2.1)) ≠
      some ({ server := { addr := ":8080" } }, false) := by
  decide

end Xpost
